import Mathlib

/-!
Shallow embedding of the myVote backend (Online-Voting-Management-System).

The repository contains two backend variants:
* `src/backend/server.js` — file-based store, UUID ids, verified JWT sessions
  (`/api/register`, `/api/login`, `/api/me`, `/api/elections` CRUD);
* `src/backend/elections.db.js` — an express router over an embedded database,
  10-character short election ids with a bounded collision-retry loop, and a
  decode-only (non-verifying) reading of the Authorization header.

JavaScript-specific behaviour (string truthiness, `x || d` defaulting,
`String.prototype.trim`, strict `===` against possibly-`null` fields, and
`Date` comparison where an invalid date compares as `NaN`, hence false) is
modelled explicitly by the `js*` helpers below.  External collaborators that
carry no logic of their own (bcrypt hashing/verification, JWT
signing/verification/decoding, the `uuid` generator, `Date.now()`, and the
`Date`-string parser) are passed in as explicit function parameters.
-/

/-- Set of characters treated as whitespace by the JavaScript regexp class
`\s` and by `String.prototype.trim` (restricted to the ASCII range; the
claims only exercise ASCII data). -/
def jsWhitespace (c : Char) : Bool :=
  c = ' ' || c = '\t' || c = '\n' || c = '\r' || c = '\x0b' || c = '\x0c'

/-- Model of `String.prototype.trim`: removes leading and trailing
whitespace. -/
def jsTrim (s : String) : String :=
  ⟨((s.data.dropWhile jsWhitespace).reverse.dropWhile jsWhitespace).reverse⟩

/-- Truthiness of a possibly-absent string field: JavaScript treats
`undefined`, `null` and `""` as falsy. -/
def jsTruthyStr (o : Option String) : Bool :=
  match o with
  | none => false
  | some s => s ≠ ""

/-- Truthiness of a possibly-absent integer field: `undefined`, `null` and
`0` are falsy. -/
def jsTruthyInt (o : Option Int) : Bool :=
  match o with
  | none => false
  | some n => n ≠ 0

/-- Model of the JavaScript defaulting idiom `o || d` on a possibly-absent
string (`c.name || ''` and similar): yields `d` when the field is absent or
the empty string. -/
def jsOrOpt (o : Option String) (d : String) : String :=
  match o with
  | none => d
  | some s => if s = "" then d else s

/-- Model of the JavaScript regexp test
`/^[^\s@]+@[^\s@]+\.[^\s@]+$/.test(e)` from `isValidEmail` in `server.js`:
exactly one `@`, a non-empty local part, no whitespace, and a `.` strictly
inside the domain part (so that both `[^\s@]+` sides of the dot are
non-empty). -/
def isValidEmail (s : String) : Bool :=
  match s.data.splitOn '@' with
  | [l, d] =>
    !l.isEmpty && l.all (fun c => !jsWhitespace c) && d.all (fun c => !jsWhitespace c)
      && ((d.drop 1).dropLast.contains '.')
  | _ => false

/-- Model of the JavaScript regexp test `/^[+\d][\d\s\-]{6,20}$/.test(p)`
from `isValidPhone` in `server.js`: a leading `+` or digit followed by 6 to
20 characters each a digit, whitespace or hyphen. -/
def isValidPhone (s : String) : Bool :=
  match s.data with
  | [] => false
  | c :: rest =>
    (c = '+' || c.isDigit) && decide (6 ≤ rest.length) && decide (rest.length ≤ 20)
      && rest.all (fun d => d.isDigit || jsWhitespace d || d = '-')

/-- Uniform shape of an endpoint response: either a success payload with its
HTTP status, or `{error: message}` with its status. -/
inductive ApiOut (α : Type) where
  | ok (status : Nat) (val : α)
  | err (status : Nat) (msg : String)
deriving DecidableEq, Repr

/-- HTTP status of a response. -/
def ApiOut.status {α : Type} : ApiOut α → Nat
  | .ok s _ => s
  | .err s _ => s

/-- Stored user record from `server.js` (`users.json`).  The
pass-through optional profile fields `age`, `aadhar`, `gender` are omitted:
no code path reads them back. -/
structure User where
  id : String
  name : String
  email : Option String
  phone : Option String
  password_hash : String
  created_at : Int
  isAdmin : Bool
deriving DecidableEq, Repr

/-- Contents of `users.json`. -/
structure UsersDb where
  users : List User
deriving DecidableEq, Repr

/-- Request body of `POST /api/register` (fields that influence control
flow). -/
structure RegisterBody where
  name : Option String
  email : Option String
  phone : Option String
  password : Option String
deriving DecidableEq, Repr

/-- Model of `app.post('/api/register')` in `server.js`.  `hash` stands for
`bcrypt.hashSync` with its generated salt, `newId` for the `uuidv4()` call,
and `now` for `Date.now()`.  Returns the response together with the
resulting user store. -/
def register (hash : String → String) (newId : String) (now : Int)
    (udb : UsersDb) (body : RegisterBody) : ApiOut String × UsersDb :=
  if !jsTruthyStr body.name || (jsTrim (body.name.getD "")).length < 2 then
    (.err 400 "Name is required and must be at least 2 characters.", udb)
  else if !jsTruthyStr body.password || (body.password.getD "").length < 6 then
    (.err 400 "Password is required and must be at least 6 characters.", udb)
  else if (!jsTruthyStr body.email || jsTrim (body.email.getD "") = "")
      && (!jsTruthyStr body.phone || jsTrim (body.phone.getD "") = "") then
    (.err 400 "Either email or phone is required.", udb)
  else if jsTruthyStr body.email && !isValidEmail (body.email.getD "") then
    (.err 400 "Invalid email format.", udb)
  else if jsTruthyStr body.phone && !isValidPhone (body.phone.getD "") then
    (.err 400 "Invalid phone format.", udb)
  else if jsTruthyStr body.email
      && udb.users.any (fun u => u.email = some (jsTrim (body.email.getD ""))) then
    (.err 409 "Email already registered.", udb)
  else if jsTruthyStr body.phone
      && udb.users.any (fun u => u.phone = some (jsTrim (body.phone.getD ""))) then
    (.err 409 "Phone already registered.", udb)
  else
    let user : User :=
      { id := newId
        name := jsTrim (body.name.getD "")
        email := if jsTruthyStr body.email then some (jsTrim (body.email.getD "")) else none
        phone := if jsTruthyStr body.phone then some (jsTrim (body.phone.getD "")) else none
        password_hash := hash (body.password.getD "")
        created_at := now
        isAdmin := false }
    (.ok 201 newId, ⟨udb.users ++ [user]⟩)

/-- Model of `app.post('/api/login')` in `server.js`.  `verify` stands for
`bcrypt.compareSync` and `sign` for `signTokenForUser`.  The comparison
`u.email === identifier` is strict JS equality, so a `null` stored contact
never matches a string identifier. -/
def login (verify : String → String → Bool) (sign : User → String)
    (udb : UsersDb) (identifier password : Option String) : ApiOut String :=
  if !jsTruthyStr identifier || !jsTruthyStr password then
    .err 400 "identifier and password are required"
  else
    match udb.users.find? (fun u => u.email = identifier || u.phone = identifier) with
    | none => .err 401 "Invalid credentials"
    | some user =>
      if verify (password.getD "") user.password_hash then .ok 200 (sign user)
      else .err 401 "Invalid credentials"

/-- Incoming `start_ts`/`end_ts` value: the API accepts either a number of
epoch milliseconds or a date string. -/
inductive TsIn where
  | num (n : Int)
  | str (s : String)
deriving DecidableEq, Repr

/-- Truthiness of a possibly-absent timestamp field: `undefined`, `null`,
`0` and `""` are falsy. -/
def jsTruthyTs (o : Option TsIn) : Bool :=
  match o with
  | none => false
  | some (.num n) => n ≠ 0
  | some (.str s) => s ≠ ""

/-- Model of the `parseToNumber` helper inside `app.post('/api/elections')`
in `server.js`: a number is returned as-is; anything else goes through
`new Date(String(v))`, which for the absent value is `Date("undefined")`,
an invalid date (`NaN`).  `parseDate` stands for the JavaScript `Date`
string parser, `none` meaning an invalid date. -/
def parseToNumber (parseDate : String → Option Int) (o : Option TsIn) : Option Int :=
  match o with
  | some (.num n) => some n
  | some (.str s) => parseDate s
  | none => none

/-- Claims object of a verified JWT session token; `server.js` only reads
`data.id` back out of it. -/
structure Claims where
  id : Option String
deriving DecidableEq, Repr

/-- Splits `"Bearer <token>"` off the Authorization header value: model of
`auth.startsWith('Bearer ')` followed by `auth.slice(7)`. -/
def bearerToken (auth : String) : Option String :=
  if auth.data.take 7 = "Bearer ".data then some ⟨auth.data.drop 7⟩ else none

/-- Model of `getUserFromAuthHeader` in `server.js`: extract the bearer
token, verify it (`tokenVerify` stands for `jwt.verify`, `none` meaning the
verification threw), and look the embedded id up in the live user store;
absence anywhere yields `none` (the route treats it as unauthenticated). -/
def getUserFromAuthHeader (tokenVerify : String → Option Claims)
    (udb : UsersDb) (auth : Option String) : Option User :=
  match auth with
  | none => none
  | some a =>
    match bearerToken a with
    | none => none
    | some token =>
      match tokenVerify token with
      | none => none
      | some data =>
        match data.id with
        | none => none
        | some i => udb.users.find? (fun u => u.id = i)

/-- Stored candidate of the `server.js` variant. -/
structure Candidate where
  id : String
  name : String
  description : String
  party : String
  manifesto : String
  votes : Int
deriving DecidableEq, Repr

/-- Stored election of the `server.js` variant (`elections.json`). -/
structure Election where
  id : String
  companyName : String
  totalSeats : Int
  description : String
  start_ts : Int
  end_ts : Int
  created_by : String
  created_at : Int
  candidates : List Candidate
deriving DecidableEq, Repr

/-- Contents of `elections.json`. -/
structure ElectionsDb where
  elections : List Election
deriving DecidableEq, Repr

/-- Submitted candidate object inside a CreateElection request body. -/
structure CandidateIn where
  name : Option String
  description : Option String
  party : Option String
  manifesto : Option String
deriving DecidableEq, Repr

/-- Request body of `POST /api/elections` in the `server.js` variant.
`candidates = none` models an absent field (destructured to the default
`[]`); a non-array value is out of the model and would likewise fail the
`Array.isArray` check.  `totalSeats` is modelled as an integer, on which
the source's `Number.isInteger` check is identically true. -/
structure CreateBody where
  companyName : Option String
  totalSeats : Option Int
  start_ts : Option TsIn
  end_ts : Option TsIn
  description : Option String
  candidates : Option (List CandidateIn)
deriving DecidableEq, Repr

/-- Indexed map mirroring `candidates.map(c => ({id: uuidv4(), ...}))`
where each iteration draws the next fresh id: `f` receives the running
index of the draw. -/
def mapWithIdx {α β : Type} (f : Nat → α → β) : Nat → List α → List β
  | _, [] => []
  | i, c :: rest => f i c :: mapWithIdx f (i + 1) rest

/-- Model of `app.post('/api/elections')` in `server.js`.  `gen` stands for
the sequence of `uuidv4()` draws made while handling the request (draw 0 is
the election id, draw `i+1` the id of the `i`-th candidate, matching the
evaluation order of the object literal), `parseDate` for the `Date` string
parser and `now` for `Date.now()`. -/
def serverCreateElection (tokenVerify : String → Option Claims)
    (gen : Nat → String) (parseDate : String → Option Int) (now : Int)
    (udb : UsersDb) (edb : ElectionsDb) (authHeader : Option String)
    (body : CreateBody) : ApiOut Election × ElectionsDb :=
  match getUserFromAuthHeader tokenVerify udb authHeader with
  | none => (.err 401 "Missing or invalid token", edb)
  | some authUser =>
    let cands := body.candidates.getD []
    if !jsTruthyStr body.companyName || !jsTruthyInt body.totalSeats
        || !jsTruthyTs body.start_ts || !jsTruthyTs body.end_ts || cands.isEmpty then
      (.err 400 "companyName, totalSeats, start_ts, end_ts and at least one candidate are required", edb)
    else
      match parseToNumber parseDate body.start_ts, parseToNumber parseDate body.end_ts with
      | some s, some e =>
        if s ≥ e then (.err 400 "Invalid start/end timestamps", edb)
        else
          let seats := body.totalSeats.getD 0
          if seats ≤ 0 then (.err 400 "totalSeats must be a positive integer", edb)
          else
            let election : Election :=
              { id := gen 0
                companyName := jsTrim (body.companyName.getD "")
                totalSeats := seats
                description := jsOrOpt body.description ""
                start_ts := s
                end_ts := e
                created_by := authUser.id
                created_at := now
                candidates := mapWithIdx (fun i c =>
                  { id := gen (i + 1)
                    name := jsTrim (jsOrOpt c.name "")
                    description := jsOrOpt c.description ""
                    party := jsOrOpt c.party ""
                    manifesto := jsOrOpt c.manifesto ""
                    votes := 0 }) 0 cands }
            (.ok 201 election, ⟨edb.elections ++ [election]⟩)
      | _, _ => (.err 400 "Invalid start/end timestamps", edb)

/-- Values appearing in a JSON summary object produced by
`GET /api/elections`. -/
inductive JVal where
  | s (v : String)
  | n (v : Int)
deriving DecidableEq, Repr

/-- Model of `app.get('/api/elections')` in `server.js`: each election is
projected to an object literal with exactly the keys written in the source,
modelled as an ordered key/value list. -/
def listElections (edb : ElectionsDb) : List (List (String × JVal)) :=
  edb.elections.map (fun e =>
    [("id", .s e.id), ("companyName", .s e.companyName),
     ("totalSeats", .n e.totalSeats), ("start_ts", .n e.start_ts),
     ("end_ts", .n e.end_ts), ("description", .s e.description)])

/-- Model of `app.get('/api/elections/:id')` in `server.js`: 404 when no
stored election has the requested id, otherwise the full record. -/
def serverGetElection (edb : ElectionsDb) (id : String) : ApiOut Election :=
  match edb.elections.find? (fun x => x.id = id) with
  | none => .err 404 "Election not found"
  | some e => .ok 200 e

/-- Candidate projection returned by `GET /api/elections/:id/candidates`
(no `votes` field). -/
structure CandProj where
  id : String
  name : String
  description : String
  party : String
  manifesto : String
deriving DecidableEq, Repr

/-- Model of `app.get('/api/elections/:id/candidates')` in `server.js`. -/
def serverGetCandidates (edb : ElectionsDb) (id : String) :
    ApiOut (String × List CandProj) :=
  match edb.elections.find? (fun x => x.id = id) with
  | none => .err 404 "Election not found"
  | some e =>
    .ok 200 (e.id, e.candidates.map (fun c =>
      { id := c.id, name := c.name, description := c.description,
        party := jsOrOpt (some c.party) "", manifesto := jsOrOpt (some c.manifesto) "" }))

/-- Decoded (unverified) JWT payload in `elections.db.js`; the route reads
`user.email || user.sub || user.id || user.name`. -/
structure DecClaims where
  email : Option String
  sub : Option String
  id : Option String
  name : Option String
deriving DecidableEq, Repr

/-- Model of the `||`-chain `a || b || ... || z` over possibly-absent
strings: the first truthy value, or the value of the last operand when all
are falsy. -/
def firstTruthy : List (Option String) → Option String
  | [] => none
  | [o] => o
  | o :: rest => if jsTruthyStr o then o else firstTruthy rest

/-- Model of `getUserFromAuthHeader` in `elections.db.js`: extracts the
bearer token and only *decodes* it (`tkDecode` stands for `jwt.decode`,
which returns `null` on malformed input and never checks the signature). -/
def dbGetUserFromAuthHeader (tkDecode : String → Option DecClaims)
    (auth : Option String) : Option DecClaims :=
  match auth with
  | none => none
  | some a =>
    match bearerToken a with
    | none => none
    | some token => tkDecode token

/-- Model of `new Date(v)` on a request timestamp value: a number is epoch
milliseconds, a string goes through the `Date` parser (`none` = invalid
date), and an absent value is an invalid date. -/
def dateOf (parseDate : String → Option Int) (o : Option TsIn) : Option Int :=
  match o with
  | some (.num n) => some n
  | some (.str s) => parseDate s
  | none => none

/-- Model of `new Date(a) >= new Date(b)`: the dates are compared through
their epoch values; any comparison involving an invalid date (`NaN`) is
false. -/
def jsDateGe (a b : Option Int) : Bool :=
  match a, b with
  | some x, some y => x ≥ y
  | _, _ => false

/-- Election row of the `elections.db.js` variant.  The stored
`start_at`/`end_at` ISO strings are modelled by the epoch instants they
denote (`toISOString` is an injective encoding of the instant). -/
structure DbElection where
  id : String
  title : String
  description : String
  start_at : Int
  end_at : Int
  eligibility : String
  publish : Int
  created_by : Option String
  created_at : Int
deriving DecidableEq, Repr

/-- Candidate row of the `elections.db.js` variant. -/
structure DbCandidate where
  rowid : Nat
  election_id : String
  name : String
  party : String
  manifesto : String
deriving DecidableEq, Repr

/-- State of the embedded database behind `elections.db.js`. -/
structure DbStore where
  elections : List DbElection
  candidates : List DbCandidate
  nextRowId : Nat
deriving DecidableEq, Repr

/-- Modelled from the spec: `db.electionExists` of the missing
`./elections.db` module — the store "enforces id uniqueness", so existence
is membership of the id among the stored election rows. -/
def electionExists (st : DbStore) (id : String) : Bool :=
  st.elections.any (fun e => e.id = id)

/-- Modelled from the spec: `db.insertElection` of the missing
`./elections.db` module — `insert(table, row)` appends the row. -/
def insertElection (st : DbStore) (e : DbElection) : DbStore :=
  { st with elections := st.elections ++ [e] }

/-- Modelled from the spec: `db.insertCandidate` of the missing
`./elections.db` module — `insert(table, row) → generatedId` appends the
row under the next registry-assigned sequence number and reports it as
`lastInsertRowid`. -/
def insertCandidate (st : DbStore) (c : DbCandidate) : Nat × DbStore :=
  (st.nextRowId,
   { st with
     candidates := st.candidates ++ [{ c with rowid := st.nextRowId }]
     nextRowId := st.nextRowId + 1 })

/-- Modelled from the spec: `db.getElectionById` of the missing
`./elections.db` module — `queryById(table, id) → row|none`. -/
def getElectionById (st : DbStore) (id : String) : Option DbElection :=
  st.elections.find? (fun e => e.id = id)

/-- Modelled from the spec: `db.getCandidatesByElectionId` of the missing
`./elections.db` module — the candidate rows stored under the given
election id, in insertion order. -/
def getCandidatesByElectionId (st : DbStore) (id : String) : List DbCandidate :=
  st.candidates.filter (fun c => c.election_id = id)

/-- Model of `generateShortId` in `elections.db.js`: each call truncates a
fresh UUID; the draws made while handling one request are `gen 0`,
`gen 1`, …  Model of the retry loop
`while (db.electionExists(electionId) && tries < 6) { electionId = generateShortId(); tries++; }`:
`fuel` is structural-recursion fuel only — at `fuel = 7` it strictly exceeds
the at most 6 iterations the `tries < 6` guard permits, so the `fuel = 0`
base case is unreachable from the initial call. -/
def idLoop (ex : String → Bool) (gen : Nat → String) :
    Nat → Nat → String → String
  | 0, _, id => id
  | fuel + 1, tries, id =>
    if ex id && tries < 6 then idLoop ex gen fuel (tries + 1) (gen (tries + 1))
    else id

/-- Saved-candidate object pushed onto `savedCandidates` and returned to
the client (`{ id: info.lastInsertRowid, name, party, manifesto }`). -/
structure SavedCand where
  id : Nat
  name : String
  party : String
  manifesto : String
deriving DecidableEq, Repr

/-- Model of the `for (const c of candidates)` loop in
`elections.db.js`: a candidate whose name is absent or trims to the empty
string is skipped (`continue`); the others are inserted in order, each
receiving the store's `lastInsertRowid`. -/
def insertCands (electionId : String) : List CandidateIn → DbStore →
    List SavedCand × DbStore
  | [], st => ([], st)
  | c :: rest, st =>
    let name := jsTrim (jsOrOpt c.name "")
    if name = "" then insertCands electionId rest st
    else
      let party := jsOrOpt c.party ""
      let manifesto := jsOrOpt c.manifesto ""
      let ins := insertCandidate st
        { rowid := 0, election_id := electionId, name := name,
          party := party, manifesto := manifesto }
      let restOut := insertCands electionId rest ins.2
      (⟨ins.1, name, party, manifesto⟩ :: restOut.1, restOut.2)

/-- Response payload of a successful create in the `elections.db.js`
variant (`publish: !!publish`). -/
structure DbCreatedResp where
  id : String
  title : String
  description : String
  start_at : Int
  end_at : Int
  eligibility : String
  publish : Bool
  created_by : Option String
  created_at : Int
  candidates : List SavedCand
deriving DecidableEq, Repr

/-- Request body of `POST /api/elections` in the `elections.db.js`
variant; absent fields take the destructuring defaults of the source
(`description = ''`, `eligibility = 'all'`, `candidates = []`,
`publish = false`). -/
structure DbCreateBody where
  title : Option String
  description : Option String
  start : Option TsIn
  «end» : Option TsIn
  eligibility : Option String
  candidates : Option (List CandidateIn)
  publish : Option Bool
deriving DecidableEq, Repr

/-- Model of `router.post('/api/elections')` in `elections.db.js`.  After
the id loop, the source builds `electionObj`, whose
`new Date(start).toISOString()` field *throws* on an invalid date; the
`catch` turns that into a 500 "Internal server error" with nothing
persisted — that path is the final `match` arm here.  The election row is
inserted before the candidate loop runs. -/
def dbCreateElection (parseDate : String → Option Int) (gen : Nat → String)
    (now : Int) (tkDecode : String → Option DecClaims) (st : DbStore)
    (authHeader : Option String) (body : DbCreateBody) :
    ApiOut DbCreatedResp × DbStore :=
  let description := body.description.getD ""
  let eligibility := body.eligibility.getD "all"
  let cands := body.candidates.getD []
  let publish := body.publish.getD false
  if !jsTruthyStr body.title || !jsTruthyTs body.start || !jsTruthyTs body.end then
    (.err 400 "title, start and end are required", st)
  else if jsDateGe (dateOf parseDate body.start) (dateOf parseDate body.end) then
    (.err 400 "end must be after start", st)
  else
    let user := dbGetUserFromAuthHeader tkDecode authHeader
    let created_by : Option String :=
      match user with
      | none => none
      | some u => firstTruthy [u.email, u.sub, u.id, u.name]
    let electionId := idLoop (electionExists st) gen 7 0 (gen 0)
    if electionExists st electionId then
      (.err 500 "Could not generate unique election id", st)
    else
      match dateOf parseDate body.start, dateOf parseDate body.end with
      | some sa, some ea =>
        let electionObj : DbElection :=
          { id := electionId
            title := body.title.getD ""
            description := description
            start_at := sa
            end_at := ea
            eligibility := eligibility
            publish := if publish then 1 else 0
            created_by := created_by
            created_at := now }
        let st1 := insertElection st electionObj
        let out := insertCands electionId cands st1
        (.ok 201
          { id := electionId
            title := body.title.getD ""
            description := description
            start_at := sa
            end_at := ea
            eligibility := eligibility
            publish := publish
            created_by := created_by
            created_at := now
            candidates := out.1 }, out.2)
      | _, _ => (.err 500 "Internal server error", st)

/-- Model of `router.get('/api/elections/:id')` in `elections.db.js`. -/
def dbGetElection (st : DbStore) (id : String) : ApiOut DbElection :=
  match getElectionById st id with
  | none => .err 404 "Election not found"
  | some e => .ok 200 e

/-- Model of `router.get('/api/elections/:id/candidates')` in
`elections.db.js`: the route performs no existence check at all and always
answers 200 with whatever candidate rows match the id. -/
def dbGetCandidates (st : DbStore) (id : String) : ApiOut (List DbCandidate) :=
  .ok 200 (getCandidatesByElectionId st id)

/-- Sample instantiation of the JavaScript `Date` string parser, used only
by concrete witnesses: a short table of ISO strings with their epoch-milli
values; every other string is an invalid date. -/
def sampleDateParse (s : String) : Option Int :=
  if s = "2025-01-01T00:00:00Z" then some 1735689600000
  else if s = "2025-01-02T00:00:00Z" then some 1735776000000
  else none

/-- Concrete user record used by witness instantiations. -/
def wUser : User := ⟨"u1", "Alice", some "a@b.c", none, "secret1#h", 0, false⟩

/-- Concrete one-user store used by witness instantiations. -/
def wUsers : UsersDb := ⟨[wUser]⟩

/-- Concrete token verifier used by witness instantiations: the token
`"tok"` verifies to claims naming `wUser`. -/
def wVerify (tok : String) : Option Claims :=
  if tok = "tok" then some ⟨some "u1"⟩ else none

/-- Concrete password verifier used by witness instantiations, matching the
sample hashes stored by `wUser`. -/
def wCompare (p h : String) : Bool := p ++ "#h" == h

/-- Concrete id-generator draw sequence used by witness instantiations. -/
def wGen (n : Nat) : String :=
  match n with
  | 0 => "E"
  | 1 => "K1"
  | 2 => "K2"
  | _ => "KX"

/-- Concrete store used by witness instantiations in which every id the
generator can draw already exists. -/
def wCollStore : DbStore :=
  ⟨[⟨"E", "T", "", 0, 1, "all", 0, none, 0⟩, ⟨"K1", "T", "", 0, 1, "all", 0, none, 0⟩,
    ⟨"K2", "T", "", 0, 1, "all", 0, none, 0⟩, ⟨"KX", "T", "", 0, 1, "all", 0, none, 0⟩],
   [], 1⟩

/-- Concrete minimal valid short-id-variant request body used by witness
instantiations. -/
def wBody9 : DbCreateBody := ⟨some "T", none, some (.num 1), some (.num 2), none, none, none⟩

/-- C1: the claim says CreateElection always answers 401 to an
unauthenticated caller and never creates an election for one.  The
`elections.db.js` variant, evaluated at a request with *no* Authorization
header, instead answers 201 and persists the election with
`created_by = null`. -/
theorem C1_unauthenticated_create_eval :
    (dbCreateElection sampleDateParse (fun _ => "a1b2c3d4e5") 0 (fun _ => none)
        ⟨[], [], 1⟩ none
        ⟨some "T", none, some (.num 1), some (.num 2), none, none, none⟩).1.status = 201
    ∧ ((dbCreateElection sampleDateParse (fun _ => "a1b2c3d4e5") 0 (fun _ => none)
        ⟨[], [], 1⟩ none
        ⟨some "T", none, some (.num 1), some (.num 2), none, none, none⟩).2.elections.map
          (fun e => e.created_by)) = [none] := by
  decide

/-- C2: in both variants, a request whose normalized start instant is at
least its normalized end instant is answered 400 and leaves the election
store unchanged, whatever the other fields contain (the `server.js` part
assumes the caller is authenticated, since an unauthenticated request is
turned away at 401 before validation runs). -/
theorem C2_start_not_before_end_rejected :
    (∀ tv gen pd now udb edb hdr body u sv ev,
      getUserFromAuthHeader tv udb hdr = some u →
      parseToNumber pd body.start_ts = some sv →
      parseToNumber pd body.end_ts = some ev →
      ev ≤ sv →
      (serverCreateElection tv gen pd now udb edb hdr body).1.status = 400
        ∧ (serverCreateElection tv gen pd now udb edb hdr body).2 = edb)
    ∧ (∀ pd gen now tkd st hdr body sv ev,
      dateOf pd body.start = some sv →
      dateOf pd body.end = some ev →
      ev ≤ sv →
      (dbCreateElection pd gen now tkd st hdr body).1.status = 400
        ∧ (dbCreateElection pd gen now tkd st hdr body).2 = st) := by
  constructor
  · intro tv gen pd now udb edb hdr body u sv ev hu hs he hle
    unfold serverCreateElection
    rw [hu, hs, he]
    simp only [ge_iff_le]
    split_ifs with h1
    · exact ⟨rfl, rfl⟩
    · exact ⟨rfl, rfl⟩
  · intro pd gen now tkd st hdr body sv ev hs he hle
    unfold dbCreateElection
    rw [hs, he]
    have hge : jsDateGe (some sv) (some ev) = true := by
      simp [jsDateGe]; omega
    split_ifs with h1
    · exact ⟨rfl, rfl⟩
    · exact ⟨rfl, rfl⟩

/-- Witness instantiating `C2_start_not_before_end_rejected` on a concrete
authenticated request with `start_ts = 5`, `end_ts = 3` in each variant. -/
theorem C2_start_not_before_end_rejected_witness :
    (getUserFromAuthHeader wVerify wUsers (some "Bearer tok") = some wUser
     ∧ parseToNumber sampleDateParse (some (.num 5)) = some 5
     ∧ parseToNumber sampleDateParse (some (.num 3)) = some 3
     ∧ (3 : Int) ≤ 5)
    ∧ ((serverCreateElection wVerify wGen sampleDateParse 0 wUsers (ElectionsDb.mk [])
        (some "Bearer tok")
        (CreateBody.mk (some "ACME") (some 3) (some (.num 5)) (some (.num 3)) none
          (some [CandidateIn.mk (some "X") none none none]))).1.status = 400
      ∧ (serverCreateElection wVerify wGen sampleDateParse 0 wUsers (ElectionsDb.mk [])
        (some "Bearer tok")
        (CreateBody.mk (some "ACME") (some 3) (some (.num 5)) (some (.num 3)) none
          (some [CandidateIn.mk (some "X") none none none]))).2 = ElectionsDb.mk [])
    ∧ ((dbCreateElection sampleDateParse wGen 0 (fun _ => none) (DbStore.mk [] [] 1) none
        (DbCreateBody.mk (some "T") none (some (.num 5)) (some (.num 3)) none none none)).1.status = 400
      ∧ (dbCreateElection sampleDateParse wGen 0 (fun _ => none) (DbStore.mk [] [] 1) none
        (DbCreateBody.mk (some "T") none (some (.num 5)) (some (.num 3)) none none none)).2
        = DbStore.mk [] [] 1) := by
  refine ⟨by decide, ?_, ?_⟩
  · exact C2_start_not_before_end_rejected.1 wVerify wGen sampleDateParse 0 wUsers
      (ElectionsDb.mk []) (some "Bearer tok")
      (CreateBody.mk (some "ACME") (some 3) (some (.num 5)) (some (.num 3)) none
        (some [CandidateIn.mk (some "X") none none none]))
      wUser 5 3 (by decide) (by decide) (by decide) (by norm_num)
  · exact C2_start_not_before_end_rejected.2 sampleDateParse wGen 0 (fun _ => none)
      (DbStore.mk [] [] 1) none
      (DbCreateBody.mk (some "T") none (some (.num 5)) (some (.num 3)) none none none)
      5 3 (by decide) (by decide) (by norm_num)

/-- C5: the two authentication failure modes are indistinguishable — an
identifier registered to no user and a registered identifier with a
non-verifying password produce the identical response, status 401 with the
generic `Invalid credentials` body. -/
theorem C5_login_failures_indistinguishable :
    ∀ (verify : String → String → Bool) (sign : User → String) (udb : UsersDb)
      (id1 p1 id2 p2 : Option String) (u : User),
      jsTruthyStr id1 = true → jsTruthyStr p1 = true →
      jsTruthyStr id2 = true → jsTruthyStr p2 = true →
      udb.users.find? (fun u => u.email = id1 || u.phone = id1) = none →
      udb.users.find? (fun u => u.email = id2 || u.phone = id2) = some u →
      verify (p2.getD "") u.password_hash = false →
      login verify sign udb id1 p1 = .err 401 "Invalid credentials"
        ∧ login verify sign udb id2 p2 = .err 401 "Invalid credentials"
        ∧ login verify sign udb id1 p1 = login verify sign udb id2 p2 := by
  intro verify sign udb id1 p1 id2 p2 u h1 h2 h3 h4 hnone hsome hbad
  have e1 : login verify sign udb id1 p1 = .err 401 "Invalid credentials" := by
    unfold login
    rw [h1, h2]
    simp only [hnone]
    simp
  have e2 : login verify sign udb id2 p2 = .err 401 "Invalid credentials" := by
    unfold login
    rw [h3, h4]
    simp only [hsome]
    simp [hbad]
  exact ⟨e1, e2, e1.trans e2.symm⟩

/-- Witness instantiating `C5_login_failures_indistinguishable` on a store
holding one user: an unknown email versus the stored email of that user with a wrong
password. -/
theorem C5_login_failures_indistinguishable_witness :
    (jsTruthyStr (some "ghost@x.yz") = true ∧ jsTruthyStr (some "pw1234") = true
     ∧ jsTruthyStr (some "a@b.c") = true ∧ jsTruthyStr (some "wrongpw") = true
     ∧ wUsers.users.find?
         (fun u => u.email = some "ghost@x.yz" || u.phone = some "ghost@x.yz") = none
     ∧ wUsers.users.find?
         (fun u => u.email = some "a@b.c" || u.phone = some "a@b.c") = some wUser
     ∧ wCompare "wrongpw" wUser.password_hash = false)
    ∧ login wCompare (fun u => u.id) wUsers (some "ghost@x.yz") (some "pw1234")
      = .err 401 "Invalid credentials"
    ∧ login wCompare (fun u => u.id) wUsers (some "a@b.c") (some "wrongpw")
      = .err 401 "Invalid credentials" := by
  refine ⟨by decide, ?_, ?_⟩
  · exact (C5_login_failures_indistinguishable wCompare (fun u => u.id) wUsers
      (some "ghost@x.yz") (some "pw1234") (some "a@b.c") (some "wrongpw") wUser
      (by decide) (by decide) (by decide) (by decide) (by decide) (by decide) (by decide)).1
  · exact (C5_login_failures_indistinguishable wCompare (fun u => u.id) wUsers
      (some "ghost@x.yz") (some "pw1234") (some "a@b.c") (some "wrongpw") wUser
      (by decide) (by decide) (by decide) (by decide) (by decide) (by decide) (by decide)).2.1

/-- C7: every summary produced by `ListElections` consists of exactly the
keys `id`, `companyName`, `totalSeats`, `start_ts`, `end_ts`,
`description` — in particular no `candidates`, `votes` or `password_hash`
key — and its values are the corresponding projections of a stored
election. -/
theorem C7_list_elections_summary_fields :
    ∀ (edb : ElectionsDb) (summ : List (String × JVal)),
      summ ∈ listElections edb →
      summ.map Prod.fst
          = ["id", "companyName", "totalSeats", "start_ts", "end_ts", "description"]
        ∧ "candidates" ∉ summ.map Prod.fst
        ∧ "votes" ∉ summ.map Prod.fst
        ∧ "password_hash" ∉ summ.map Prod.fst
        ∧ ∃ e ∈ edb.elections,
            summ = [("id", .s e.id), ("companyName", .s e.companyName),
                    ("totalSeats", .n e.totalSeats), ("start_ts", .n e.start_ts),
                    ("end_ts", .n e.end_ts), ("description", .s e.description)] := by
  intro edb summ hmem
  simp only [listElections, List.mem_map] at hmem
  obtain ⟨e, he, rfl⟩ := hmem
  refine ⟨by simp, by simp, by simp, by simp, e, he, rfl⟩

/-- Witness instantiating `C7_list_elections_summary_fields` on a registry
holding one concrete election. -/
theorem C7_list_elections_summary_fields_witness :
    ([("id", JVal.s "E"), ("companyName", JVal.s "ACME"), ("totalSeats", JVal.n 2),
      ("start_ts", JVal.n 3), ("end_ts", JVal.n 5), ("description", JVal.s "")]
        ∈ listElections (ElectionsDb.mk [Election.mk "E" "ACME" 2 "" 3 5 "u1" 7 []]))
    ∧ ([("id", JVal.s "E"), ("companyName", JVal.s "ACME"), ("totalSeats", JVal.n 2),
        ("start_ts", JVal.n 3), ("end_ts", JVal.n 5), ("description", JVal.s "")].map Prod.fst
          = ["id", "companyName", "totalSeats", "start_ts", "end_ts", "description"]
      ∧ "candidates" ∉ [("id", JVal.s "E"), ("companyName", JVal.s "ACME"),
          ("totalSeats", JVal.n 2), ("start_ts", JVal.n 3), ("end_ts", JVal.n 5),
          ("description", JVal.s "")].map Prod.fst) := by
  refine ⟨by decide, ?_⟩
  have h := C7_list_elections_summary_fields
    (ElectionsDb.mk [Election.mk "E" "ACME" 2 "" 3 5 "u1" 7 []])
    [("id", JVal.s "E"), ("companyName", JVal.s "ACME"), ("totalSeats", JVal.n 2),
     ("start_ts", JVal.n 3), ("end_ts", JVal.n 5), ("description", JVal.s "")]
    (by decide)
  exact ⟨h.1, h.2.1⟩

/-- C6 counterexample: the claim says `GetCandidates(id)` answers 404 for
an id not present in the registry, but the `elections.db.js` candidates
route performs no existence check: on the empty store and the unknown id
`zzz` it answers 200 (with an empty list). -/
theorem C6_absent_id_counterexample :
    getElectionById (DbStore.mk [] [] 1) "zzz" = none
    ∧ dbGetCandidates (DbStore.mk [] [] 1) "zzz" = .ok 200 []
    ∧ (dbGetCandidates (DbStore.mk [] [] 1) "zzz").status = 200 := by
  decide

/-- C6 (amended): in the `server.js` variant both `GetElection` and
`GetCandidates` answer 404 exactly when the id is absent and 200 when it
is present; in the `elections.db.js` variant `GetElection` behaves the
same way but the candidates route always answers 200, returning the
(possibly empty) rows stored under the id. -/
theorem C6_get_by_id_amended :
    (∀ (edb : ElectionsDb) (id : String),
      (edb.elections.find? (fun x => x.id = id) = none →
        (serverGetElection edb id).status = 404
          ∧ (serverGetCandidates edb id).status = 404)
      ∧ (∀ e, edb.elections.find? (fun x => x.id = id) = some e →
        (serverGetElection edb id).status = 200
          ∧ (serverGetCandidates edb id).status = 200))
    ∧ (∀ (st : DbStore) (id : String),
      (getElectionById st id = none → (dbGetElection st id).status = 404)
      ∧ (∀ e, getElectionById st id = some e → (dbGetElection st id).status = 200)
      ∧ dbGetCandidates st id = .ok 200 (getCandidatesByElectionId st id)) := by
  constructor
  · intro edb id
    constructor
    · intro hnone
      unfold serverGetElection serverGetCandidates
      rw [hnone]
      exact ⟨rfl, rfl⟩
    · intro e hsome
      unfold serverGetElection serverGetCandidates
      rw [hsome]
      exact ⟨rfl, rfl⟩
  · intro st id
    refine ⟨?_, ?_, rfl⟩
    · intro hnone
      unfold dbGetElection
      rw [hnone]
      rfl
    · intro e hsome
      unfold dbGetElection
      rw [hsome]
      rfl

/-- Witness instantiating `C6_get_by_id_amended` on a registry holding one
election, probed at its id and at an absent id. -/
theorem C6_get_by_id_amended_witness :
    ((ElectionsDb.mk [Election.mk "E" "ACME" 2 "" 3 5 "u1" 7 []]).elections.find?
        (fun x => x.id = "zzz") = none
     ∧ (serverGetElection (ElectionsDb.mk [Election.mk "E" "ACME" 2 "" 3 5 "u1" 7 []]) "zzz").status = 404
     ∧ (serverGetCandidates (ElectionsDb.mk [Election.mk "E" "ACME" 2 "" 3 5 "u1" 7 []]) "zzz").status = 404)
    ∧ ((ElectionsDb.mk [Election.mk "E" "ACME" 2 "" 3 5 "u1" 7 []]).elections.find?
        (fun x => x.id = "E") = some (Election.mk "E" "ACME" 2 "" 3 5 "u1" 7 [])
     ∧ (serverGetElection (ElectionsDb.mk [Election.mk "E" "ACME" 2 "" 3 5 "u1" 7 []]) "E").status = 200
     ∧ (serverGetCandidates (ElectionsDb.mk [Election.mk "E" "ACME" 2 "" 3 5 "u1" 7 []]) "E").status = 200)
    ∧ (getElectionById (DbStore.mk [] [] 1) "q" = none
     ∧ (dbGetElection (DbStore.mk [] [] 1) "q").status = 404) := by
  refine ⟨⟨by decide, ?_⟩, ⟨by decide, ?_⟩, by decide, ?_⟩
  · exact (C6_get_by_id_amended.1 (ElectionsDb.mk [Election.mk "E" "ACME" 2 "" 3 5 "u1" 7 []])
      "zzz").1 (by decide)
  · exact (C6_get_by_id_amended.1 (ElectionsDb.mk [Election.mk "E" "ACME" 2 "" 3 5 "u1" 7 []])
      "E").2 (Election.mk "E" "ACME" 2 "" 3 5 "u1" 7 []) (by decide)
  · exact ((C6_get_by_id_amended.2 (DbStore.mk [] [] 1) "q").1 (by decide))

/-- C4 counterexample: the claim says every subsequent Register call
supplying an already-registered email fails with 409; but field validation
runs first, so a subsequent call with the same email and a 1-character
password fails with 400 instead (the store is still left unchanged). -/
theorem C4_duplicate_email_counterexample :
    (register (fun p => p ++ "#h") "u1" 0 (UsersDb.mk [])
        (RegisterBody.mk (some "Alice") (some "a@b.c") none (some "secret1"))).1
      = .ok 201 "u1"
    ∧ (register (fun p => p ++ "#h") "u2" 1
        (register (fun p => p ++ "#h") "u1" 0 (UsersDb.mk [])
          (RegisterBody.mk (some "Alice") (some "a@b.c") none (some "secret1"))).2
        (RegisterBody.mk (some "Bob") (some "a@b.c") none (some "x"))).1
      = .err 400 "Password is required and must be at least 6 characters."
    ∧ (register (fun p => p ++ "#h") "u2" 1
        (register (fun p => p ++ "#h") "u1" 0 (UsersDb.mk [])
          (RegisterBody.mk (some "Alice") (some "a@b.c") none (some "secret1"))).2
        (RegisterBody.mk (some "Bob") (some "a@b.c") none (some "x"))).1.status ≠ 409 := by
  decide

/-- Helper: appending one element to a list with at most one `p`-match
keeps the match count at most one, provided the new element only matches
when the old list had no match. -/
theorem count_le_one_append_single {α : Type} (l : List α) (p : α → Bool) (x : α)
    (h1 : (l.filter p).length ≤ 1)
    (h2 : p x = true → l.filter p = []) :
    ((l ++ [x]).filter p).length ≤ 1 := by
  rw [List.filter_append]
  by_cases hx : p x = true
  · simp [List.filter_cons, hx, h2 hx]
  · have hx2 : p x = false := by simpa using hx
    simp [List.filter_cons, hx2, h1]

set_option maxHeartbeats 1600000 in
/-- C4 (amended): after a successful registration with a truthy email
(resp. phone), every subsequent Register call that itself passes field
validation and supplies that same email (resp. phone) fails with 409 and
leaves the user store unchanged; and every single register step preserves
the invariant that each email (resp. phone) belongs to at most one stored
user.  (A subsequent duplicate call that fails field validation is
rejected with 400 before the conflict check — see the counterexample.) -/
theorem C4_duplicate_contact_conflict_amended :
    (∀ (hash : String → String) (id1 id2 : String) (now1 now2 : Int)
      (udb : UsersDb) (b1 b2 : RegisterBody) (uid : String) (udb1 : UsersDb),
      register hash id1 now1 udb b1 = (.ok 201 uid, udb1) →
      jsTruthyStr b2.name = true →
      ¬ (jsTrim (b2.name.getD "")).length < 2 →
      jsTruthyStr b2.password = true →
      ¬ (b2.password.getD "").length < 6 →
      (jsTruthyStr b2.phone && !isValidPhone (b2.phone.getD "")) = false →
      b2.email = b1.email →
      jsTruthyStr b1.email = true →
      jsTrim (b1.email.getD "") ≠ "" →
      (register hash id2 now2 udb1 b2).1.status = 409
        ∧ (register hash id2 now2 udb1 b2).2 = udb1)
    ∧ (∀ (hash : String → String) (id1 id2 : String) (now1 now2 : Int)
      (udb : UsersDb) (b1 b2 : RegisterBody) (uid : String) (udb1 : UsersDb),
      register hash id1 now1 udb b1 = (.ok 201 uid, udb1) →
      jsTruthyStr b2.name = true →
      ¬ (jsTrim (b2.name.getD "")).length < 2 →
      jsTruthyStr b2.password = true →
      ¬ (b2.password.getD "").length < 6 →
      (jsTruthyStr b2.email && !isValidEmail (b2.email.getD "")) = false →
      b2.phone = b1.phone →
      jsTruthyStr b1.phone = true →
      jsTrim (b1.phone.getD "") ≠ "" →
      (register hash id2 now2 udb1 b2).1.status = 409
        ∧ (register hash id2 now2 udb1 b2).2 = udb1)
    ∧ (∀ (hash : String → String) (nid : String) (now : Int)
      (udb : UsersDb) (body : RegisterBody),
      (∀ em, (udb.users.filter (fun u => u.email = some em)).length ≤ 1) →
      (∀ ph, (udb.users.filter (fun u => u.phone = some ph)).length ≤ 1) →
      (∀ em, ((register hash nid now udb body).2.users.filter
          (fun u => u.email = some em)).length ≤ 1)
        ∧ (∀ ph, ((register hash nid now udb body).2.users.filter
          (fun u => u.phone = some ph)).length ≤ 1)) := by
  refine ⟨?_, ?_, ?_⟩
  · intro hash id1 id2 now1 now2 udb b1 b2 uid udb1 h1 hn1 hn2 hp1 hp2 hphOk hemail htr htrim
    unfold register at h1
    split_ifs at h1 with d1 d2 d3 d4 d5 d6 d7
    all_goals try simp at h1
    all_goals {
      obtain ⟨-, hdb⟩ := h1
      subst hdb
      have hvalid : isValidEmail (b1.email.getD "") = true := by
        rcases hb : isValidEmail (b1.email.getD "") with _ | _
        · exact absurd (by simp [htr, hb]) d4
        · rfl
      unfold register
      simp [hn1, hn2, hp1, hp2, hemail, htr, htrim, hvalid, hphOk, List.any_append,
        ApiOut.status] }
  · intro hash id1 id2 now1 now2 udb b1 b2 uid udb1 h1 hn1 hn2 hp1 hp2 hemOk hphone htrP htrimP
    unfold register at h1
    split_ifs at h1 with d1 d2 d3 d4 d5 d6 d7
    all_goals try simp at h1
    all_goals {
      obtain ⟨-, hdb⟩ := h1
      have hvalidP : isValidPhone (b1.phone.getD "") = true := by
        rcases hb : isValidPhone (b1.phone.getD "") with _ | _
        · exact absurd (by simp [htrP, hb]) d5
        · rfl
      have hmem : udb1.users.any (fun u => u.phone = some (jsTrim (b1.phone.getD ""))) = true := by
        rw [← hdb]
        simp [htrP, List.any_append]
      unfold register
      by_cases hc6 : (jsTruthyStr b2.email
          && udb1.users.any (fun u => u.email = some (jsTrim (b2.email.getD "")))) = true
      · simp [hn1, hn2, hp1, hp2, hphone, htrP, htrimP, hemOk, hvalidP, hc6, ApiOut.status]
      · simp [hn1, hn2, hp1, hp2, hphone, htrP, htrimP, hemOk, hvalidP, hc6, hmem,
          ApiOut.status] }
  · intro hash nid now udb body hE hP
    rcases hreg : register hash nid now udb body with ⟨out, udb2⟩
    simp only
    unfold register at hreg
    split_ifs at hreg with d1 d2 d3 d4 d5 d6 d7 d8 d9 d10
    all_goals simp at hreg
    all_goals obtain ⟨-, hdb⟩ := hreg
    all_goals subst hdb
    all_goals try exact ⟨hE, hP⟩
    all_goals refine ⟨fun em => count_le_one_append_single _ _ _ (hE em) fun hx => ?_,
                      fun ph => count_le_one_append_single _ _ _ (hP ph) fun hx => ?_⟩
    all_goals simp at hx
    all_goals (rw [List.filter_eq_nil_iff]; intro a ha)
    all_goals {
      first
      | { have hany : udb.users.any
              (fun u => u.email = some (jsTrim (body.email.getD ""))) = false := by
            rcases hb : udb.users.any
                (fun u => u.email = some (jsTrim (body.email.getD ""))) with _ | _
            · rfl
            · exact absurd (by simp only [hb, Bool.and_true]; assumption) d6
          simp only [List.any_eq_false] at hany
          simpa [hx] using hany a ha }
      | { have hany : udb.users.any
              (fun u => u.phone = some (jsTrim (body.phone.getD ""))) = false := by
            rcases hb : udb.users.any
                (fun u => u.phone = some (jsTrim (body.phone.getD ""))) with _ | _
            · rfl
            · exact absurd (by simp only [hb, Bool.and_true]; assumption) d7
          simp only [List.any_eq_false] at hany
          simpa [hx] using hany a ha } }

/-- Witness instantiating `C4_duplicate_contact_conflict_amended`: a second
field-valid registration reusing the email `a@b.c` (resp. the phone
`+1234567`) is answered 409 with the store unchanged, and a register step
from the empty store keeps contact uniqueness. -/
theorem C4_duplicate_contact_conflict_amended_witness :
    (register (fun p => p ++ "#h") "u1" 0 (UsersDb.mk [])
        (RegisterBody.mk (some "Alice") (some "a@b.c") none (some "secret1"))
      = (.ok 201 "u1", UsersDb.mk [User.mk "u1" "Alice" (some "a@b.c") none "secret1#h" 0 false]))
    ∧ ((register (fun p => p ++ "#h") "u2" 1
        (UsersDb.mk [User.mk "u1" "Alice" (some "a@b.c") none "secret1#h" 0 false])
        (RegisterBody.mk (some "Bob") (some "a@b.c") none (some "qwerty12"))).1.status = 409
      ∧ (register (fun p => p ++ "#h") "u2" 1
        (UsersDb.mk [User.mk "u1" "Alice" (some "a@b.c") none "secret1#h" 0 false])
        (RegisterBody.mk (some "Bob") (some "a@b.c") none (some "qwerty12"))).2
        = UsersDb.mk [User.mk "u1" "Alice" (some "a@b.c") none "secret1#h" 0 false])
    ∧ (register (fun p => p ++ "#h") "u3" 0 (UsersDb.mk [])
        (RegisterBody.mk (some "Carol") none (some "+1234567") (some "secret1"))
      = (.ok 201 "u3", UsersDb.mk [User.mk "u3" "Carol" none (some "+1234567") "secret1#h" 0 false]))
    ∧ ((register (fun p => p ++ "#h") "u4" 1
        (UsersDb.mk [User.mk "u3" "Carol" none (some "+1234567") "secret1#h" 0 false])
        (RegisterBody.mk (some "Dave") none (some "+1234567") (some "qwerty12"))).1.status = 409
      ∧ (register (fun p => p ++ "#h") "u4" 1
        (UsersDb.mk [User.mk "u3" "Carol" none (some "+1234567") "secret1#h" 0 false])
        (RegisterBody.mk (some "Dave") none (some "+1234567") (some "qwerty12"))).2
        = UsersDb.mk [User.mk "u3" "Carol" none (some "+1234567") "secret1#h" 0 false])
    ∧ (((register (fun p => p ++ "#h") "u1" 0 (UsersDb.mk [])
        (RegisterBody.mk (some "Alice") (some "a@b.c") none (some "secret1"))).2.users.filter
        (fun u => u.email = some "a@b.c")).length ≤ 1) := by
  refine ⟨by decide, ?_, by decide, ?_, ?_⟩
  · exact C4_duplicate_contact_conflict_amended.1 (fun p => p ++ "#h") "u1" "u2" 0 1
      (UsersDb.mk [])
      (RegisterBody.mk (some "Alice") (some "a@b.c") none (some "secret1"))
      (RegisterBody.mk (some "Bob") (some "a@b.c") none (some "qwerty12"))
      "u1" (UsersDb.mk [User.mk "u1" "Alice" (some "a@b.c") none "secret1#h" 0 false])
      (by decide) (by decide) (by decide) (by decide) (by decide) (by decide) (by decide)
      (by decide) (by decide)
  · exact C4_duplicate_contact_conflict_amended.2.1 (fun p => p ++ "#h") "u3" "u4" 0 1
      (UsersDb.mk [])
      (RegisterBody.mk (some "Carol") none (some "+1234567") (some "secret1"))
      (RegisterBody.mk (some "Dave") none (some "+1234567") (some "qwerty12"))
      "u3" (UsersDb.mk [User.mk "u3" "Carol" none (some "+1234567") "secret1#h" 0 false])
      (by decide) (by decide) (by decide) (by decide) (by decide) (by decide) (by decide)
      (by decide) (by decide)
  · exact (C4_duplicate_contact_conflict_amended.2.2 (fun p => p ++ "#h") "u1" 0
      (UsersDb.mk [])
      (RegisterBody.mk (some "Alice") (some "a@b.c") none (some "secret1"))
      (fun em => by simp) (fun ph => by simp)).1 "a@b.c"

/-- C3 counterexample: the claim says an unparseable timestamp string is
answered with ValidationError (400); but in the `elections.db.js` variant
an unparseable `start` passes the date comparison (`NaN` comparisons are
false) and only blows up at `toISOString`, which the catch turns into
InternalError (500). -/
theorem C3_unparseable_counterexample :
    sampleDateParse "not-a-date" = none
    ∧ (dbCreateElection sampleDateParse wGen 0 (fun _ => none) (DbStore.mk [] [] 1) none
        (DbCreateBody.mk (some "T") none (some (.str "not-a-date")) (some (.num 100))
          none none none)).1
      = .err 500 "Internal server error"
    ∧ (dbCreateElection sampleDateParse wGen 0 (fun _ => none) (DbStore.mk [] [] 1) none
        (DbCreateBody.mk (some "T") none (some (.str "not-a-date")) (some (.num 100))
          none none none)).1.status ≠ 400
    ∧ (dbCreateElection sampleDateParse wGen 0 (fun _ => none) (DbStore.mk [] [] 1) none
        (DbCreateBody.mk (some "T") none (some (.str "not-a-date")) (some (.num 100))
          none none none)).2 = DbStore.mk [] [] 1 := by
  decide

/-- C3 (amended): in the `server.js` variant an unparseable `start_ts` or
`end_ts` string yields 400 with nothing persisted, and on success the
stored instants are exactly the normalized (epoch-number) values of the
submitted number-or-string inputs; in the `elections.db.js` variant an
unparseable timestamp string instead escapes validation and surfaces as
InternalError (500), likewise persisting nothing. -/
theorem C3_timestamp_parse_amended :
    (∀ tv gen pd now udb edb hdr body u,
      getUserFromAuthHeader tv udb hdr = some u →
      ((∃ s1, body.start_ts = some (.str s1) ∧ pd s1 = none)
        ∨ (∃ s2, body.end_ts = some (.str s2) ∧ pd s2 = none)) →
      (serverCreateElection tv gen pd now udb edb hdr body).1.status = 400
        ∧ (serverCreateElection tv gen pd now udb edb hdr body).2 = edb)
    ∧ (∀ tv gen pd now udb edb hdr body elec edb2,
      serverCreateElection tv gen pd now udb edb hdr body = (.ok 201 elec, edb2) →
      parseToNumber pd body.start_ts = some elec.start_ts
        ∧ parseToNumber pd body.end_ts = some elec.end_ts)
    ∧ (∀ pd gen now tkd st hdr body,
      jsTruthyStr body.title = true →
      jsTruthyTs body.start = true →
      jsTruthyTs body.end = true →
      electionExists st (gen 0) = false →
      (dateOf pd body.start = none ∨ dateOf pd body.end = none) →
      (dbCreateElection pd gen now tkd st hdr body).1 = .err 500 "Internal server error"
        ∧ (dbCreateElection pd gen now tkd st hdr body).2 = st) := by
  refine ⟨?_, ?_, ?_⟩
  · intro tv gen pd now udb edb hdr body u hu hbad
    unfold serverCreateElection
    simp only [hu]
    split_ifs with h1
    all_goals try exact ⟨rfl, rfl⟩
    all_goals {
      rcases hbad with ⟨s1, hs1, hpd⟩ | ⟨s2, hs2, hpd⟩
      · have hP : parseToNumber pd body.start_ts = none := by
          rw [hs1]; simp [parseToNumber, hpd]
        rw [hP]
        exact ⟨rfl, rfl⟩
      · have hP : parseToNumber pd body.end_ts = none := by
          rw [hs2]; simp [parseToNumber, hpd]
        rw [hP]
        rcases hps : parseToNumber pd body.start_ts with _ | sv
        all_goals exact ⟨rfl, rfl⟩ }
  · intro tv gen pd now udb edb hdr body elec edb2 h
    unfold serverCreateElection at h
    rcases hau : getUserFromAuthHeader tv udb hdr with _ | u
    · rw [hau] at h; simp at h
    · simp only [hau] at h
      rcases hps : parseToNumber pd body.start_ts with _ | sv
      · simp only [hps] at h
        split_ifs at h <;> simp at h
      · rcases hpe : parseToNumber pd body.end_ts with _ | ev
        · simp only [hps, hpe] at h
          split_ifs at h <;> simp at h
        · simp only [hps, hpe] at h
          split_ifs at h <;> simp at h
          obtain ⟨hel, -⟩ := h
          subst hel
          exact ⟨rfl, rfl⟩
  · intro pd gen now tkd st hdr body htitle hst hen hfresh hbad
    unfold dbCreateElection
    simp only [htitle, hst, hen]
    have hid : idLoop (electionExists st) gen 7 0 (gen 0) = gen 0 := by
      rw [show (7 : Nat) = 6 + 1 from rfl, idLoop]
      simp [hfresh]
    have hge : jsDateGe (dateOf pd body.start) (dateOf pd body.end) = false := by
      rcases hbad with hb | hb
      · rw [hb]; rfl
      · rw [hb]
        rcases dateOf pd body.start with _ | x <;> rfl
    simp only [hge, hid, hfresh, Bool.not_true, Bool.false_or, Bool.false_eq_true,
      if_false]
    rcases hbad with hb | hb
    · rw [hb]
      exact ⟨rfl, rfl⟩
    · rw [hb]
      rcases hds : dateOf pd body.start with _ | x
      all_goals exact ⟨rfl, rfl⟩

/-- Witness instantiating `C3_timestamp_parse_amended`: the unparseable
string `garbage` is rejected with 400 by the `server.js` variant; a
successful creation stores the normalized epoch values; and the
`elections.db.js` variant turns the unparseable `junk` into a 500. -/
theorem C3_timestamp_parse_amended_witness :
    (getUserFromAuthHeader wVerify wUsers (some "Bearer tok") = some wUser
     ∧ sampleDateParse "garbage" = none
     ∧ sampleDateParse "junk" = none)
    ∧ ((serverCreateElection wVerify wGen sampleDateParse 0 wUsers (ElectionsDb.mk [])
        (some "Bearer tok")
        (CreateBody.mk (some "ACME") (some 3) (some (.str "garbage")) (some (.num 100)) none
          (some [CandidateIn.mk (some "X") none none none]))).1.status = 400
      ∧ (serverCreateElection wVerify wGen sampleDateParse 0 wUsers (ElectionsDb.mk [])
        (some "Bearer tok")
        (CreateBody.mk (some "ACME") (some 3) (some (.str "garbage")) (some (.num 100)) none
          (some [CandidateIn.mk (some "X") none none none]))).2 = ElectionsDb.mk [])
    ∧ (serverCreateElection wVerify wGen sampleDateParse 7 wUsers (ElectionsDb.mk [])
        (some "Bearer tok")
        (CreateBody.mk (some "ACME") (some 2) (some (.num 3)) (some (.num 5)) none
          (some [CandidateIn.mk (some "X") none none none]))
      = (.ok 201 (Election.mk "E" "ACME" 2 "" 3 5 "u1" 7 [Candidate.mk "K1" "X" "" "" "" 0]),
         ElectionsDb.mk [Election.mk "E" "ACME" 2 "" 3 5 "u1" 7 [Candidate.mk "K1" "X" "" "" "" 0]])
      ∧ parseToNumber sampleDateParse (some (.num 3))
        = some (Election.mk "E" "ACME" 2 "" 3 5 "u1" 7 [Candidate.mk "K1" "X" "" "" "" 0]).start_ts
      ∧ parseToNumber sampleDateParse (some (.num 5))
        = some (Election.mk "E" "ACME" 2 "" 3 5 "u1" 7 [Candidate.mk "K1" "X" "" "" "" 0]).end_ts)
    ∧ ((dbCreateElection sampleDateParse wGen 0 (fun _ => none) (DbStore.mk [] [] 1) none
        (DbCreateBody.mk (some "T") none (some (.num 1)) (some (.str "junk")) none none none)).1
        = .err 500 "Internal server error"
      ∧ (dbCreateElection sampleDateParse wGen 0 (fun _ => none) (DbStore.mk [] [] 1) none
        (DbCreateBody.mk (some "T") none (some (.num 1)) (some (.str "junk")) none none none)).2
        = DbStore.mk [] [] 1) := by
  refine ⟨by decide, ?_, ⟨by decide, ?_⟩, ?_⟩
  · exact C3_timestamp_parse_amended.1 wVerify wGen sampleDateParse 0 wUsers
      (ElectionsDb.mk []) (some "Bearer tok")
      (CreateBody.mk (some "ACME") (some 3) (some (.str "garbage")) (some (.num 100)) none
        (some [CandidateIn.mk (some "X") none none none]))
      wUser (by decide) (Or.inl ⟨"garbage", by decide, by decide⟩)
  · exact C3_timestamp_parse_amended.2.1 wVerify wGen sampleDateParse 7 wUsers
      (ElectionsDb.mk []) (some "Bearer tok")
      (CreateBody.mk (some "ACME") (some 2) (some (.num 3)) (some (.num 5)) none
        (some [CandidateIn.mk (some "X") none none none]))
      (Election.mk "E" "ACME" 2 "" 3 5 "u1" 7 [Candidate.mk "K1" "X" "" "" "" 0])
      (ElectionsDb.mk [Election.mk "E" "ACME" 2 "" 3 5 "u1" 7 [Candidate.mk "K1" "X" "" "" "" 0]])
      (by decide)
  · exact C3_timestamp_parse_amended.2.2 sampleDateParse wGen 0 (fun _ => none)
      (DbStore.mk [] [] 1) none
      (DbCreateBody.mk (some "T") none (some (.num 1)) (some (.str "junk")) none none none)
      (by decide) (by decide) (by decide) (by decide) (Or.inr (by decide))

/-- Helper: the id produced by the retry loop is one of the draws
`gen 0`, …, `gen 6`. -/
theorem idLoop_mem (ex : String → Bool) (gen : Nat → String) :
    ∀ fuel tries id, idLoop ex gen fuel tries id = id
      ∨ ∃ j, tries < j ∧ j ≤ 6 ∧ idLoop ex gen fuel tries id = gen j := by
  intro fuel
  induction fuel with
  | zero => intro tries id; exact Or.inl rfl
  | succ fuel ih =>
    intro tries id
    rw [idLoop]
    by_cases h : (ex id && decide (tries < 6)) = true
    · rw [if_pos h]
      have h6 : tries < 6 := by simp at h; exact h.2
      rcases ih (tries + 1) (gen (tries + 1)) with h1 | ⟨j, hj1, hj2, hj3⟩
      · exact Or.inr ⟨tries + 1, Nat.lt_succ_self _, by omega, h1⟩
      · exact Or.inr ⟨j, by omega, hj2, hj3⟩
    · rw [if_neg h]
      exact Or.inl rfl

/-- Helper: if the id produced by the retry loop still collides, then the
starting id and every retry draw in the remaining window collide. -/
theorem idLoop_exhaust (ex : String → Bool) (gen : Nat → String) :
    ∀ fuel tries id, 6 ≤ tries + fuel →
      ex (idLoop ex gen fuel tries id) = true →
      ex id = true ∧ ∀ j, tries < j → j ≤ 6 → ex (gen j) = true := by
  intro fuel
  induction fuel with
  | zero =>
    intro tries id hle hex
    rw [idLoop] at hex
    exact ⟨hex, fun j hj1 hj2 => by omega⟩
  | succ fuel ih =>
    intro tries id hle hex
    rw [idLoop] at hex
    by_cases h : (ex id && decide (tries < 6)) = true
    · rw [if_pos h] at hex
      have h6 : tries < 6 := by simp at h; exact h.2
      have hexid : ex id = true := by simp at h; exact h.1
      obtain ⟨hg, hrest⟩ := ih (tries + 1) (gen (tries + 1)) (by omega) hex
      refine ⟨hexid, fun j hj1 hj2 => ?_⟩
      rcases Nat.eq_or_lt_of_le (Nat.succ_le_of_lt hj1) with he | hlt
      · exact he ▸ hg
      · exact hrest j hlt hj2
    · rw [if_neg h] at hex
      refine ⟨hex, fun j hj1 hj2 => ?_⟩
      have h6 : ¬ tries < 6 := by
        intro hlt
        exact h (by simp [hex, hlt])
      omega

/-- C9: under a passing validation, the short-id variant answers 500
("Could not generate unique election id") with nothing persisted when all
seven draws `gen 0 … gen 6` (the initial attempt plus at most 6 retries)
collide with existing ids; that error implies every one of those draws
collides; and whenever some draw among the seven is fresh the operation
succeeds with an allocated id that is one of the seven draws and is not
already in the registry. -/
theorem C9_short_id_allocation :
    ∀ (pd : String → Option Int) (gen : Nat → String) (now : Int)
      (tkd : String → Option DecClaims) (st : DbStore) (hdr : Option String)
      (body : DbCreateBody) (sa ea : Int),
      jsTruthyStr body.title = true →
      jsTruthyTs body.start = true →
      jsTruthyTs body.end = true →
      dateOf pd body.start = some sa →
      dateOf pd body.end = some ea →
      sa < ea →
      ((∀ i, i < 7 → electionExists st (gen i) = true) →
        (dbCreateElection pd gen now tkd st hdr body).1
            = .err 500 "Could not generate unique election id"
          ∧ (dbCreateElection pd gen now tkd st hdr body).2 = st)
      ∧ (∀ i, i < 7 →
          (dbCreateElection pd gen now tkd st hdr body).1
              = .err 500 "Could not generate unique election id" →
          electionExists st (gen i) = true)
      ∧ ((∃ i, i < 7 ∧ electionExists st (gen i) = false) →
        ∃ resp st2, dbCreateElection pd gen now tkd st hdr body = (.ok 201 resp, st2)
          ∧ electionExists st resp.id = false
          ∧ resp.id ∈ (List.range 7).map gen) := by
  intro pd gen now tkd st hdr body sa ea ht hs he hsa hea hlt
  have hge : jsDateGe (dateOf pd body.start) (dateOf pd body.end) = false := by
    rw [hsa, hea]
    simp [jsDateGe]
    omega
  have hge2 : jsDateGe (some sa) (some ea) = false := by
    simp [jsDateGe]
    omega
  refine ⟨?_, ?_, ?_⟩
  · intro hall
    have hexr : electionExists st (idLoop (electionExists st) gen 7 0 (gen 0)) = true := by
      rcases idLoop_mem (electionExists st) gen 7 0 (gen 0) with h1 | ⟨j, hj1, hj2, hj3⟩
      · rw [h1]; exact hall 0 (by omega)
      · rw [hj3]; exact hall j (by omega)
    unfold dbCreateElection
    simp only [ht, hs, he, Bool.not_true, Bool.false_or, hge, hge2, Bool.false_eq_true,
      if_false, hexr, if_true]
    constructor <;> first | rfl | trivial
  · intro i hi7 herr
    rcases hexr : electionExists st (idLoop (electionExists st) gen 7 0 (gen 0)) with _ | _
    · exfalso
      unfold dbCreateElection at herr
      simp only [ht, hs, he, Bool.not_true, Bool.false_or, hge, hge2, Bool.false_eq_true,
        if_false, hexr, hsa, hea] at herr
      exact ApiOut.noConfusion herr
    · obtain ⟨h0, hrest⟩ := idLoop_exhaust (electionExists st) gen 7 0 (gen 0) (by omega) hexr
      rcases Nat.eq_zero_or_pos i with rfl | hpos
      · exact h0
      · exact hrest i hpos (by omega)
  · rintro ⟨i, hi7, hfree⟩
    have hexr : electionExists st (idLoop (electionExists st) gen 7 0 (gen 0)) = false := by
      rcases hb : electionExists st (idLoop (electionExists st) gen 7 0 (gen 0)) with _ | _
      · rfl
      · exfalso
        obtain ⟨h0, hrest⟩ := idLoop_exhaust (electionExists st) gen 7 0 (gen 0) (by omega) hb
        rcases Nat.eq_zero_or_pos i with rfl | hpos
        · rw [h0] at hfree; simp at hfree
        · rw [hrest i hpos (by omega)] at hfree; simp at hfree
    unfold dbCreateElection
    simp only [ht, hs, he, Bool.not_true, Bool.false_or, hge, hge2, Bool.false_eq_true,
      if_false, hexr, hsa, hea]
    refine ⟨_, _, rfl, hexr, ?_⟩
    simp only [List.mem_map, List.mem_range]
    rcases idLoop_mem (electionExists st) gen 7 0 (gen 0) with h1 | ⟨j, hj1, hj2, hj3⟩
    · exact ⟨0, by omega, h1.symm⟩
    · exact ⟨j, by omega, hj3.symm⟩

/-- Witness instantiating `C9_short_id_allocation`: with a registry already
holding the ids `E`, `K1`, `K2`, `KX` every draw of `wGen` collides and
creation fails with the allocation error; on the empty registry the first
draw is fresh and creation succeeds with it. -/
theorem C9_short_id_allocation_witness :
    (jsTruthyStr (some "T") = true
     ∧ dateOf sampleDateParse (some (.num 1)) = some 1
     ∧ dateOf sampleDateParse (some (.num 2)) = some 2
     ∧ (1 : Int) < 2
     ∧ (∀ i, i < 7 → electionExists wCollStore (wGen i) = true)
     ∧ electionExists (DbStore.mk [] [] 1) (wGen 0) = false)
    ∧ ((dbCreateElection sampleDateParse wGen 0 (fun _ => none) wCollStore none wBody9).1
        = .err 500 "Could not generate unique election id"
      ∧ (dbCreateElection sampleDateParse wGen 0 (fun _ => none) wCollStore none wBody9).2
        = wCollStore)
    ∧ electionExists wCollStore (wGen 3) = true
    ∧ (∃ resp st2,
        dbCreateElection sampleDateParse wGen 0 (fun _ => none) (DbStore.mk [] [] 1) none wBody9
          = (.ok 201 resp, st2)
        ∧ electionExists (DbStore.mk [] [] 1) resp.id = false
        ∧ resp.id ∈ (List.range 7).map wGen) := by
  refine ⟨by decide, ?_, ?_, ?_⟩
  · exact (C9_short_id_allocation sampleDateParse wGen 0 (fun _ => none) wCollStore none
      wBody9 1 2 (by decide) (by decide) (by decide) (by decide) (by decide)
      (by norm_num)).1 (by decide)
  · exact (C9_short_id_allocation sampleDateParse wGen 0 (fun _ => none) wCollStore none
      wBody9 1 2 (by decide) (by decide) (by decide) (by decide) (by decide)
      (by norm_num)).2.1 3 (by norm_num) (by decide)
  · exact (C9_short_id_allocation sampleDateParse wGen 0 (fun _ => none) (DbStore.mk [] [] 1)
      none wBody9 1 2 (by decide) (by decide) (by decide) (by decide) (by decide)
      (by norm_num)).2.2 ⟨0, by norm_num, by decide⟩

/-- Helper: the saved-candidate list returned by the candidate loop is the
submitted list with empty-trimmed names dropped, fields preserved in
order. -/
theorem insertCands_saved (eid : String) :
    ∀ (cs : List CandidateIn) (st : DbStore),
      (insertCands eid cs st).1.map (fun sc => (sc.name, sc.party, sc.manifesto))
        = (cs.filter (fun c => !(jsTrim (jsOrOpt c.name "") = ""))).map
            (fun c => (jsTrim (jsOrOpt c.name ""), jsOrOpt c.party "", jsOrOpt c.manifesto "")) := by
  intro cs
  induction cs with
  | nil => intro st; rfl
  | cons c rest ih =>
    intro st
    by_cases h : jsTrim (jsOrOpt c.name "") = ""
    · simp [insertCands, h, ih]
    · simp [insertCands, h, ih, insertCandidate]

/-- Helper: the candidate loop appends exactly the kept candidates as rows
under the given election id and leaves the election table alone. -/
theorem insertCands_store (eid : String) :
    ∀ (cs : List CandidateIn) (st : DbStore),
      ∃ rows, (insertCands eid cs st).2.candidates = st.candidates ++ rows
        ∧ rows.map (fun r => (r.name, r.party, r.manifesto))
            = (cs.filter (fun c => !(jsTrim (jsOrOpt c.name "") = ""))).map
                (fun c => (jsTrim (jsOrOpt c.name ""), jsOrOpt c.party "", jsOrOpt c.manifesto ""))
        ∧ (∀ r ∈ rows, r.election_id = eid)
        ∧ (insertCands eid cs st).2.elections = st.elections := by
  intro cs
  induction cs with
  | nil => intro st; exact ⟨[], by simp [insertCands], by simp, by simp, rfl⟩
  | cons c rest ih =>
    intro st
    by_cases h : jsTrim (jsOrOpt c.name "") = ""
    · obtain ⟨rows, h1, h2, h3, h4⟩ := ih st
      refine ⟨rows, ?_, ?_, h3, ?_⟩
      · simpa [insertCands, h] using h1
      · simpa [h] using h2
      · simpa [insertCands, h] using h4
    · obtain ⟨rows, h1, h2, h3, h4⟩ := ih (insertCandidate st
        ⟨0, eid, jsTrim (jsOrOpt c.name ""), jsOrOpt c.party "", jsOrOpt c.manifesto ""⟩).2
      refine ⟨⟨st.nextRowId, eid, jsTrim (jsOrOpt c.name ""), jsOrOpt c.party "",
        jsOrOpt c.manifesto ""⟩ :: rows, ?_, ?_, ?_, ?_⟩
      · simp only [insertCands, h, if_false]
        rw [h1]
        simp [insertCandidate, List.append_assoc]
      · simp [List.filter_cons, h, h2]
      · intro r hr
        rcases List.mem_cons.mp hr with rfl | hmem
        · rfl
        · exact h3 r hmem
      · simp only [insertCands, h, if_false]
        rw [h4]
        simp [insertCandidate]

/-- C10: in the short-id variant a submitted candidate whose name is absent
or trims to the empty string is silently dropped — the response stays 201,
the returned and persisted candidates are exactly the kept ones in
submission order with party and manifesto preserved, the election row is
still persisted, and when every submitted name trims to empty the election
is created with no candidates at all. -/
theorem C10_db_drops_unnamed_candidates :
    ∀ (pd : String → Option Int) (gen : Nat → String) (now : Int)
      (tkd : String → Option DecClaims) (st : DbStore) (hdr : Option String)
      (body : DbCreateBody) (cs : List CandidateIn) (sa ea : Int),
      body.candidates = some cs →
      jsTruthyStr body.title = true →
      jsTruthyTs body.start = true →
      jsTruthyTs body.end = true →
      dateOf pd body.start = some sa →
      dateOf pd body.end = some ea →
      sa < ea →
      electionExists st (gen 0) = false →
      ∃ resp st2, dbCreateElection pd gen now tkd st hdr body = (.ok 201 resp, st2)
        ∧ resp.candidates.map (fun sc => (sc.name, sc.party, sc.manifesto))
            = (cs.filter (fun c => !(jsTrim (jsOrOpt c.name "") = ""))).map
                (fun c => (jsTrim (jsOrOpt c.name ""), jsOrOpt c.party "", jsOrOpt c.manifesto ""))
        ∧ (∃ rows, st2.candidates = st.candidates ++ rows
            ∧ rows.map (fun r => (r.name, r.party, r.manifesto))
                = (cs.filter (fun c => !(jsTrim (jsOrOpt c.name "") = ""))).map
                    (fun c => (jsTrim (jsOrOpt c.name ""), jsOrOpt c.party "", jsOrOpt c.manifesto ""))
            ∧ ∀ r ∈ rows, r.election_id = resp.id)
        ∧ st2.elections.map (fun e => e.id) = st.elections.map (fun e => e.id) ++ [gen 0]
        ∧ ((∀ c ∈ cs, jsTrim (jsOrOpt c.name "") = "") → resp.candidates = []) := by
  intro pd gen now tkd st hdr body cs sa ea hcs ht hs he hsa hea hlt hfresh
  have hge : jsDateGe (dateOf pd body.start) (dateOf pd body.end) = false := by
    rw [hsa, hea]; simp [jsDateGe]; omega
  have hge2 : jsDateGe (some sa) (some ea) = false := by
    simp [jsDateGe]; omega
  have hid : idLoop (electionExists st) gen 7 0 (gen 0) = gen 0 := by
    rw [show (7 : Nat) = 6 + 1 from rfl, idLoop]
    simp [hfresh]
  unfold dbCreateElection
  simp only [ht, hs, he, Bool.not_true, Bool.false_or, hge, hge2, Bool.false_eq_true,
    if_false, hid, hfresh, hsa, hea, hcs, Option.getD_some]
  refine ⟨_, _, rfl, ?_, ?_, ?_, ?_⟩
  · exact insertCands_saved _ cs _
  · obtain ⟨rows, r1, r2, r3, r4⟩ := insertCands_store (gen 0) cs
      (insertElection st
        ⟨gen 0, body.title.getD "", body.description.getD "", sa, ea,
         body.eligibility.getD "all", if body.publish.getD false then 1 else 0,
         (match dbGetUserFromAuthHeader tkd hdr with
          | none => none
          | some u => firstTruthy [u.email, u.sub, u.id, u.name]), now⟩)
    exact ⟨rows, r1, r2, r3⟩
  · obtain ⟨rows, r1, r2, r3, r4⟩ := insertCands_store (gen 0) cs
      (insertElection st
        ⟨gen 0, body.title.getD "", body.description.getD "", sa, ea,
         body.eligibility.getD "all", if body.publish.getD false then 1 else 0,
         (match dbGetUserFromAuthHeader tkd hdr with
          | none => none
          | some u => firstTruthy [u.email, u.sub, u.id, u.name]), now⟩)
    rw [r4]
    simp [insertElection]
  · intro hall
    have hsv := insertCands_saved (gen 0) cs
      (insertElection st
        ⟨gen 0, body.title.getD "", body.description.getD "", sa, ea,
         body.eligibility.getD "all", if body.publish.getD false then 1 else 0,
         (match dbGetUserFromAuthHeader tkd hdr with
          | none => none
          | some u => firstTruthy [u.email, u.sub, u.id, u.name]), now⟩)
    have hfil : cs.filter (fun c => !(jsTrim (jsOrOpt c.name "") = "")) = [] := by
      rw [List.filter_eq_nil_iff]
      intro a ha
      simp [hall a ha]
    rw [hfil] at hsv
    simpa using hsv

/-- Witness instantiating `C10_db_drops_unnamed_candidates` on a request
submitting three candidates of which the first (whitespace name) and third
(absent name) are dropped. -/
theorem C10_db_drops_unnamed_candidates_witness :
    ((DbCreateBody.mk (some "T") none (some (.num 1)) (some (.num 2)) none
        (some [CandidateIn.mk (some "  ") none none none,
               CandidateIn.mk (some "Alice") (some "d") (some "P") (some "M"),
               CandidateIn.mk none none none none]) none).candidates
      = some [CandidateIn.mk (some "  ") none none none,
              CandidateIn.mk (some "Alice") (some "d") (some "P") (some "M"),
              CandidateIn.mk none none none none]
     ∧ electionExists (DbStore.mk [] [] 1) (wGen 0) = false)
    ∧ (∃ resp st2,
        dbCreateElection sampleDateParse wGen 0 (fun _ => none) (DbStore.mk [] [] 1) none
          (DbCreateBody.mk (some "T") none (some (.num 1)) (some (.num 2)) none
            (some [CandidateIn.mk (some "  ") none none none,
                   CandidateIn.mk (some "Alice") (some "d") (some "P") (some "M"),
                   CandidateIn.mk none none none none]) none)
          = (.ok 201 resp, st2)
        ∧ resp.candidates.map (fun sc => (sc.name, sc.party, sc.manifesto))
            = ([CandidateIn.mk (some "  ") none none none,
                CandidateIn.mk (some "Alice") (some "d") (some "P") (some "M"),
                CandidateIn.mk none none none none].filter
                  (fun c => !(jsTrim (jsOrOpt c.name "") = ""))).map
                (fun c => (jsTrim (jsOrOpt c.name ""), jsOrOpt c.party "", jsOrOpt c.manifesto ""))
        ∧ (∃ rows, st2.candidates = (DbStore.mk [] [] 1).candidates ++ rows
            ∧ rows.map (fun r => (r.name, r.party, r.manifesto))
                = ([CandidateIn.mk (some "  ") none none none,
                    CandidateIn.mk (some "Alice") (some "d") (some "P") (some "M"),
                    CandidateIn.mk none none none none].filter
                      (fun c => !(jsTrim (jsOrOpt c.name "") = ""))).map
                    (fun c => (jsTrim (jsOrOpt c.name ""), jsOrOpt c.party "",
                               jsOrOpt c.manifesto ""))
            ∧ ∀ r ∈ rows, r.election_id = resp.id)
        ∧ st2.elections.map (fun e => e.id)
            = (DbStore.mk [] [] 1).elections.map (fun e => e.id) ++ [wGen 0]
        ∧ ((∀ c ∈ [CandidateIn.mk (some "  ") none none none,
                    CandidateIn.mk (some "Alice") (some "d") (some "P") (some "M"),
                    CandidateIn.mk none none none none],
              jsTrim (jsOrOpt c.name "") = "") → resp.candidates = [])) := by
  refine ⟨by decide, ?_⟩
  exact C10_db_drops_unnamed_candidates sampleDateParse wGen 0 (fun _ => none)
    (DbStore.mk [] [] 1) none
    (DbCreateBody.mk (some "T") none (some (.num 1)) (some (.num 2)) none
      (some [CandidateIn.mk (some "  ") none none none,
             CandidateIn.mk (some "Alice") (some "d") (some "P") (some "M"),
             CandidateIn.mk none none none none]) none)
    [CandidateIn.mk (some "  ") none none none,
     CandidateIn.mk (some "Alice") (some "d") (some "P") (some "M"),
     CandidateIn.mk none none none none]
    1 2 (by decide) (by decide) (by decide) (by decide) (by decide) (by decide)
    (by norm_num) (by decide)

/-- Helper: an indexed map preserves length. -/
theorem mapWithIdx_length {α β : Type} (f : Nat → α → β) :
    ∀ (k : Nat) (l : List α), (mapWithIdx f k l).length = l.length := by
  intro k l
  induction l generalizing k with
  | nil => rfl
  | cons c rest ih => simp [mapWithIdx, ih]

/-- Helper: mapping a function over an indexed map composes pointwise. -/
theorem mapWithIdx_map {α β γ : Type} (f : Nat → α → β) (g : β → γ) :
    ∀ (k : Nat) (l : List α), (mapWithIdx f k l).map g = mapWithIdx (fun i a => g (f i a)) k l := by
  intro k l
  induction l generalizing k with
  | nil => rfl
  | cons c rest ih => simp [mapWithIdx, ih]

/-- Helper: an indexed map that ignores the index is a plain map. -/
theorem mapWithIdx_const {α β : Type} (g : α → β) :
    ∀ (k : Nat) (l : List α), mapWithIdx (fun _ a => g a) k l = l.map g := by
  intro k l
  induction l generalizing k with
  | nil => rfl
  | cons c rest ih => simp [mapWithIdx, ih]

/-- Helper: an indexed map that uses only the index lists the draws
`h k, h (k+1), …` in order. -/
theorem mapWithIdx_idx {β α : Type} (h : Nat → β) :
    ∀ (k : Nat) (l : List α),
      mapWithIdx (fun i _ => h i) k l = (List.range l.length).map (fun i => h (k + i)) := by
  intro k l
  induction l generalizing k with
  | nil => rfl
  | cons c rest ih =>
    simp only [mapWithIdx, List.length_cons, List.range_succ_eq_map, List.map_cons,
      List.map_map, ih]
    refine List.cons_eq_cons.mpr ⟨by simp, List.map_congr_left fun a _ => ?_⟩
    exact congrArg h (by omega)

/-- C8: after a successful CreateElection in the `server.js` variant,
GetElection on the returned id succeeds with exactly the created record,
whose candidate list matches the submitted one — same length and
submission order, name trimmed with the empty-string defaults for
description/party/manifesto, votes initialised to 0, and pairwise-distinct
ids drawn from the generator (distinctness under the collision-resistance
assumption on the draws, which the spec itself only claims
probabilistically). -/
theorem C8_create_get_round_trip :
    ∀ (tv : String → Option Claims) (gen : Nat → String) (pd : String → Option Int)
      (now : Int) (udb : UsersDb) (edb : ElectionsDb) (hdr : Option String)
      (body : CreateBody) (u : User) (cs : List CandidateIn) (sv ev seats : Int),
      getUserFromAuthHeader tv udb hdr = some u →
      jsTruthyStr body.companyName = true →
      body.totalSeats = some seats →
      0 < seats →
      jsTruthyTs body.start_ts = true →
      jsTruthyTs body.end_ts = true →
      parseToNumber pd body.start_ts = some sv →
      parseToNumber pd body.end_ts = some ev →
      sv < ev →
      body.candidates = some cs →
      cs ≠ [] →
      (∀ e ∈ edb.elections, e.id ≠ gen 0) →
      (gen 0 :: (List.range cs.length).map (fun i => gen (i + 1))).Nodup →
      ∃ elec edb2,
        serverCreateElection tv gen pd now udb edb hdr body = (.ok 201 elec, edb2)
        ∧ edb2 = ElectionsDb.mk (edb.elections ++ [elec])
        ∧ serverGetElection edb2 elec.id = .ok 200 elec
        ∧ elec.id = gen 0
        ∧ elec.candidates.length = cs.length
        ∧ elec.candidates.map (fun c => c.name) = cs.map (fun c => jsTrim (jsOrOpt c.name ""))
        ∧ elec.candidates.map (fun c => c.description) = cs.map (fun c => jsOrOpt c.description "")
        ∧ elec.candidates.map (fun c => c.party) = cs.map (fun c => jsOrOpt c.party "")
        ∧ elec.candidates.map (fun c => c.manifesto) = cs.map (fun c => jsOrOpt c.manifesto "")
        ∧ (∀ c ∈ elec.candidates, c.votes = 0)
        ∧ elec.candidates.map (fun c => c.id) = (List.range cs.length).map (fun i => gen (i + 1))
        ∧ (elec.candidates.map (fun c => c.id)).Nodup := by
  intro tv gen pd now udb edb hdr body u cs sv ev seats hu hcn hseats hpos hst het hps hpe
    hlt hcs hne hfr hnd
  have hti : jsTruthyInt (some seats) = true := by
    simp [jsTruthyInt]; omega
  have hie : cs.isEmpty = false := by
    rcases cs with _ | _
    · exact absurd rfl hne
    · rfl
  unfold serverCreateElection
  simp only [hu, hcn, hti, hst, het, hcs, Option.getD_some, hie, Bool.not_true,
    Bool.false_or, Bool.or_false, Bool.false_eq_true, if_false, hps, hpe, hseats]
  have hge : ¬ sv ≥ ev := by omega
  rw [if_neg hge, if_neg (by omega : ¬ seats ≤ 0)]
  refine ⟨_, _, rfl, rfl, ?_, rfl, ?_, ?_, ?_, ?_, ?_, ?_, ?_, ?_⟩
  · -- serverGetElection finds the appended election
    unfold serverGetElection
    rw [List.find?_append]
    have h1 : edb.elections.find? (fun x => x.id = gen 0) = none := by
      rw [List.find?_eq_none]
      intro x hx
      simp [hfr x hx]
    rw [h1]
    simp [List.find?_cons]
  · exact (mapWithIdx_length _ _ _).trans rfl
  · rw [mapWithIdx_map]
    exact mapWithIdx_const _ _ _
  · rw [mapWithIdx_map]
    exact mapWithIdx_const _ _ _
  · rw [mapWithIdx_map]
    exact mapWithIdx_const _ _ _
  · rw [mapWithIdx_map]
    exact mapWithIdx_const _ _ _
  · intro c hc
    have hv : c.votes ∈ (mapWithIdx (fun i c => (⟨gen (i + 1), jsTrim (jsOrOpt c.name ""),
        jsOrOpt c.description "", jsOrOpt c.party "", jsOrOpt c.manifesto "", 0⟩ : Candidate))
        0 cs).map (fun x => x.votes) := List.mem_map_of_mem _ hc
    rw [mapWithIdx_map, mapWithIdx_const] at hv
    rcases List.mem_map.mp hv with ⟨a, -, ha⟩
    exact ha.symm
  · rw [mapWithIdx_map, mapWithIdx_idx]
    simp
  · rw [mapWithIdx_map, mapWithIdx_idx]
    have := List.Nodup.of_cons hnd
    simpa using this

/-- Witness instantiating `C8_create_get_round_trip` on a two-candidate
creation: the round trip returns the stored record with trimmed names,
defaulted fields, zero votes and the distinct draw ids `K1`, `K2`. -/
theorem C8_create_get_round_trip_witness :
    (getUserFromAuthHeader wVerify wUsers (some "Bearer tok") = some wUser
     ∧ parseToNumber sampleDateParse (some (.num 3)) = some 3
     ∧ parseToNumber sampleDateParse (some (.num 5)) = some 5
     ∧ (3 : Int) < 5
     ∧ (0 : Int) < 2
     ∧ (wGen 0 :: (List.range 2).map (fun i => wGen (i + 1))).Nodup)
    ∧ (∃ elec edb2,
        serverCreateElection wVerify wGen sampleDateParse 7 wUsers (ElectionsDb.mk [])
          (some "Bearer tok")
          (CreateBody.mk (some "ACME") (some 2) (some (.num 3)) (some (.num 5)) none
            (some [CandidateIn.mk (some " Ann ") (some "d1") (some "P1") (some "M1"),
                   CandidateIn.mk (some "Bob") none none none]))
          = (.ok 201 elec, edb2)
        ∧ edb2 = ElectionsDb.mk ((ElectionsDb.mk []).elections ++ [elec])
        ∧ serverGetElection edb2 elec.id = .ok 200 elec
        ∧ elec.id = wGen 0
        ∧ elec.candidates.length
            = [CandidateIn.mk (some " Ann ") (some "d1") (some "P1") (some "M1"),
               CandidateIn.mk (some "Bob") none none none].length
        ∧ elec.candidates.map (fun c => c.name)
            = [CandidateIn.mk (some " Ann ") (some "d1") (some "P1") (some "M1"),
               CandidateIn.mk (some "Bob") none none none].map
                (fun c => jsTrim (jsOrOpt c.name ""))
        ∧ elec.candidates.map (fun c => c.description)
            = [CandidateIn.mk (some " Ann ") (some "d1") (some "P1") (some "M1"),
               CandidateIn.mk (some "Bob") none none none].map
                (fun c => jsOrOpt c.description "")
        ∧ elec.candidates.map (fun c => c.party)
            = [CandidateIn.mk (some " Ann ") (some "d1") (some "P1") (some "M1"),
               CandidateIn.mk (some "Bob") none none none].map (fun c => jsOrOpt c.party "")
        ∧ elec.candidates.map (fun c => c.manifesto)
            = [CandidateIn.mk (some " Ann ") (some "d1") (some "P1") (some "M1"),
               CandidateIn.mk (some "Bob") none none none].map
                (fun c => jsOrOpt c.manifesto "")
        ∧ (∀ c ∈ elec.candidates, c.votes = 0)
        ∧ elec.candidates.map (fun c => c.id) = (List.range 2).map (fun i => wGen (i + 1))
        ∧ (elec.candidates.map (fun c => c.id)).Nodup) := by
  refine ⟨by decide, ?_⟩
  exact C8_create_get_round_trip wVerify wGen sampleDateParse 7 wUsers (ElectionsDb.mk [])
    (some "Bearer tok")
    (CreateBody.mk (some "ACME") (some 2) (some (.num 3)) (some (.num 5)) none
      (some [CandidateIn.mk (some " Ann ") (some "d1") (some "P1") (some "M1"),
             CandidateIn.mk (some "Bob") none none none]))
    wUser
    [CandidateIn.mk (some " Ann ") (some "d1") (some "P1") (some "M1"),
     CandidateIn.mk (some "Bob") none none none]
    3 5 2 (by decide) (by decide) (by decide) (by decide) (by decide) (by decide)
    (by decide) (by decide) (by decide) (by decide) (by decide) (by simp) (by decide)
